import Mathlib

/-!
Verification of the ansible-portainer collection against its specification.

The Python modules under `plugins/` are shallowly embedded here:
JSON-like values become the inductive `Value`, Python dicts become
association lists (`Dict`), raised exceptions become `Except`/inductive
outcome types, and the HTTP transport is modelled by the list of calls a
code path issues together with its classification of a given response.
-/

/-- A JSON-like value as handled by the Python modules.  Python's `None`
is the value `vnone`; `dict.get(k)` with the default of `None` is then
total. -/
inductive Value where
  | vnone : Value
  | vint : Int → Value
  | vstr : String → Value
  | vbool : Bool → Value
  | vlist : List Value → Value
  deriving Repr

mutual

def Value.decEq : (a b : Value) → Decidable (a = b)
  | .vnone, .vnone => isTrue rfl
  | .vnone, .vint _ => isFalse (fun h => Value.noConfusion h)
  | .vnone, .vstr _ => isFalse (fun h => Value.noConfusion h)
  | .vnone, .vbool _ => isFalse (fun h => Value.noConfusion h)
  | .vnone, .vlist _ => isFalse (fun h => Value.noConfusion h)
  | .vint _, .vnone => isFalse (fun h => Value.noConfusion h)
  | .vint a, .vint b =>
    if h : a = b then isTrue (by rw [h])
    else isFalse (fun e => h (by injection e))
  | .vint _, .vstr _ => isFalse (fun h => Value.noConfusion h)
  | .vint _, .vbool _ => isFalse (fun h => Value.noConfusion h)
  | .vint _, .vlist _ => isFalse (fun h => Value.noConfusion h)
  | .vstr _, .vnone => isFalse (fun h => Value.noConfusion h)
  | .vstr _, .vint _ => isFalse (fun h => Value.noConfusion h)
  | .vstr a, .vstr b =>
    if h : a = b then isTrue (by rw [h])
    else isFalse (fun e => h (by injection e))
  | .vstr _, .vbool _ => isFalse (fun h => Value.noConfusion h)
  | .vstr _, .vlist _ => isFalse (fun h => Value.noConfusion h)
  | .vbool _, .vnone => isFalse (fun h => Value.noConfusion h)
  | .vbool _, .vint _ => isFalse (fun h => Value.noConfusion h)
  | .vbool _, .vstr _ => isFalse (fun h => Value.noConfusion h)
  | .vbool a, .vbool b =>
    if h : a = b then isTrue (by rw [h])
    else isFalse (fun e => h (by injection e))
  | .vbool _, .vlist _ => isFalse (fun h => Value.noConfusion h)
  | .vlist _, .vnone => isFalse (fun h => Value.noConfusion h)
  | .vlist _, .vint _ => isFalse (fun h => Value.noConfusion h)
  | .vlist _, .vstr _ => isFalse (fun h => Value.noConfusion h)
  | .vlist _, .vbool _ => isFalse (fun h => Value.noConfusion h)
  | .vlist a, .vlist b =>
    match Value.decEqList a b with
    | isTrue h => isTrue (by rw [h])
    | isFalse h => isFalse (fun e => h (by injection e))

def Value.decEqList : (a b : List Value) → Decidable (a = b)
  | [], [] => isTrue rfl
  | [], _ :: _ => isFalse (fun h => List.noConfusion h)
  | _ :: _, [] => isFalse (fun h => List.noConfusion h)
  | x :: xs, y :: ys =>
    match Value.decEq x y, Value.decEqList xs ys with
    | isTrue h1, isTrue h2 => isTrue (by rw [h1, h2])
    | isFalse h1, isTrue _ => isFalse (fun e => h1 (by injection e))
    | isTrue _, isFalse h2 => isFalse (fun e => h2 (by injection e))
    | isFalse h1, isFalse _ => isFalse (fun e => h1 (by injection e))

end

instance : DecidableEq Value := Value.decEq

/-- A Python dict with string keys, as an association list (insertion
order preserved, first binding wins on lookup). -/
abbrev Dict := List (String × Value)

/-- `d.get(k)` returning `None` when the key is absent: lookup with the
`vnone` default. -/
def Dict.getV : Dict → String → Value
  | [], _ => Value.vnone
  | kv :: rest, k => if kv.1 = k then kv.2 else Dict.getV rest k

/-- `d[k]` as a partial lookup (`none` models a `KeyError`). -/
def Dict.findV : Dict → String → Option Value
  | [], _ => none
  | kv :: rest, k => if kv.1 = k then some kv.2 else Dict.findV rest k

/-- `IdempotencyManager.needs_update` from
`plugins/module_utils/portainer_module.py`: walk `new_data`, skip keys in
`skip_fields`, collect keys whose value differs from `existing_data.get(k)`,
then drop entries whose desired value is `None`. -/
def IdempotencyManager.needs_update (existing_data new_data : Dict) (skip_fields : List String) : Dict :=
  let changes := new_data.filter (fun kv =>
    !(skip_fields.contains kv.1) && !(kv.2 == Dict.getV existing_data kv.1))
  changes.filter (fun kv => !(kv.2 == Value.vnone))

/-- C2: the change-set returned by `needs_update` contains exactly the
bindings `(k, v)` of `desired` with `k` outside `skip_fields`, `v` not
null, and `v` different from `existing`'s value for `k` (an absent key
reads as null, so any non-null desired value differs from it). -/
theorem needs_update_characterization
    (existing_data new_data : Dict) (skip_fields : List String)
    (k : String) (v : Value) :
    (k, v) ∈ IdempotencyManager.needs_update existing_data new_data skip_fields ↔
      ((k, v) ∈ new_data ∧ k ∉ skip_fields ∧
        v ≠ Dict.getV existing_data k ∧ v ≠ Value.vnone) := by
  simp [IdempotencyManager.needs_update, List.mem_filter]
  tauto

/-- An item of a remote collection, as the modules see it: a JSON object. -/
abbrev Item := Dict

/-- The exception taxonomy of `plugins/module_utils/portainer_crud.py`
(`PortainerCRUDException` subclasses), plus Python built-in errors the
same code paths can raise. -/
inductive CrudError where
  | valueError (msg : String)
  | keyError (key : String)
  | itemNotExists (msg : String)
  | multipleItemsReturned (msg : String) (item_ids : List Value)
  deriving Repr, DecidableEq

/-- The extra local key/value equality filters of
`BaseCRUD.get_item_by_name`: each `(k, v)` keeps the items whose value
for `k` (absent reads as `None`) equals `v`. -/
def applyLocalFilters (items : List Item) (filters : List (String × Value)) : List Item :=
  filters.foldl (fun acc kv => acc.filter (fun it => it.getV kv.1 == kv.2)) items

/-- The records of the remote list whose name field equals the queried
name, after the extra local filters: the `items` list that
`BaseCRUD.get_item_by_name` ends up inspecting. -/
def matchingItems (name_field name : String) (all_items : List Item)
    (filters : List (String × Value)) : List Item :=
  applyLocalFilters (all_items.filter (fun it => it.getV name_field == Value.vstr name)) filters

/-- The id list `[g[self.id_field] for g in items]` built for
`MultipleItemsReturned`; a record without the id field raises `KeyError`. -/
def collectIds (id_field : String) : List Item → Except CrudError (List Value)
  | [] => .ok []
  | it :: rest =>
    match it.findV id_field with
    | none => .error (.keyError id_field)
    | some v => (collectIds id_field rest).map (fun ids => v :: ids)

/-- `BaseCRUD.get_item_by_name`: an empty name is a `ValueError`; zero
matches raise `ItemNotExists`; exactly one match is returned; two or more
matches raise `MultipleItemsReturned` carrying the matching ids in remote
order. -/
def get_item_by_name (name_field id_field name : String)
    (all_items : List Item) (filters : List (String × Value)) : Except CrudError Item :=
  if name = "" then .error (.valueError "Name should not be empty")
  else
    match matchingItems name_field name all_items filters with
    | [] => .error (.itemNotExists "Item does not exist.")
    | [item] => .ok item
    | a :: b :: t =>
      match collectIds id_field (a :: b :: t) with
      | .ok ids => .error (.multipleItemsReturned "Multiple items found" ids)
      | .error e => .error e

/-- Outcome of `BaseCRUD.validate_single_item`: the single match, `None`,
a fatal `fail_json` payload carrying `duplicate_ids`, or a propagated
exception. -/
inductive ValidateResult where
  | found (item : Item)
  | notFound
  | failJson (msg : String) (duplicate_ids : List Value)
  | raised (e : CrudError)
  deriving Repr, DecidableEq

/-- The `fail_json` message of `BaseCRUD.validate_single_item` (source
quotes around the name elided). -/
def validateFailMsg (operation resource_name name : String) : String :=
  "Cannot " ++ operation ++ " " ++ resource_name ++ ": Multiple " ++ resource_name ++
    "s found with name " ++ name ++ ". Please use the Portainer UI to remove duplicates."

/-- `BaseCRUD.validate_single_item`: wraps `get_item_by_name`, turning
`MultipleItemsReturned` into a fatal failure reporting the duplicate ids
and `ItemNotExists` into "no result". -/
def validate_single_item (name_field id_field resource_name operation name : String)
    (all_items : List Item) (filters : List (String × Value)) : ValidateResult :=
  match get_item_by_name name_field id_field name all_items filters with
  | .ok item => .found item
  | .error (.multipleItemsReturned _ ids) =>
    .failJson (validateFailMsg operation resource_name name) ids
  | .error (.itemNotExists _) => .notFound
  | .error e => .raised e

/-- When every matching record carries the id field, `collectIds`
succeeds with exactly the id values in list order. -/
theorem collectIds_ok (id_field : String) (items : List Item)
    (h : ∀ it ∈ items, (Dict.findV it id_field).isSome) :
    collectIds id_field items =
      .ok (items.map (fun it => (Dict.findV it id_field).getD Value.vnone)) := by
  induction items with
  | nil => simp [collectIds]
  | cons it rest ih =>
    have hit : (Dict.findV it id_field).isSome := h it (by simp)
    obtain ⟨v, hv⟩ := Option.isSome_iff_exists.mp hit
    have hrest := ih (fun x hx => h x (by simp [hx]))
    simp [collectIds, hv, hrest, Except.map]

/-- C1: whenever the remote collection holds two or more records matching
the queried name (after the extra local filters), `get_item_by_name`
raises `MultipleItemsReturned` whose `item_ids` are exactly the matching
records' id-field values in remote order, and `validate_single_item`
turns that into a fatal failure reporting the same ids as
`duplicate_ids`. -/
theorem crud_ambiguous_name_refusal
    (name_field id_field resource_name operation name : String)
    (all_items : List Item) (filters : List (String × Value))
    (hname : name ≠ "")
    (htwo : 2 ≤ (matchingItems name_field name all_items filters).length)
    (hids : ∀ it ∈ matchingItems name_field name all_items filters,
      (Dict.findV it id_field).isSome) :
    get_item_by_name name_field id_field name all_items filters =
      .error (.multipleItemsReturned "Multiple items found"
        ((matchingItems name_field name all_items filters).map
          (fun it => (Dict.findV it id_field).getD Value.vnone)))
    ∧ validate_single_item name_field id_field resource_name operation name all_items filters =
      .failJson (validateFailMsg operation resource_name name)
        ((matchingItems name_field name all_items filters).map
          (fun it => (Dict.findV it id_field).getD Value.vnone)) := by
  obtain ⟨a, b, t, hm⟩ : ∃ a b t,
      matchingItems name_field name all_items filters = a :: b :: t := by
    match hmm : matchingItems name_field name all_items filters with
    | [] => rw [hmm] at htwo; simp at htwo
    | [x] => rw [hmm] at htwo; simp at htwo
    | x :: y :: t => exact ⟨x, y, t, rfl⟩
  have hcoll := collectIds_ok id_field _ hids
  rw [hm] at hcoll
  have hget : get_item_by_name name_field id_field name all_items filters =
      .error (.multipleItemsReturned "Multiple items found"
        ((matchingItems name_field name all_items filters).map
          (fun it => (Dict.findV it id_field).getD Value.vnone))) := by
    unfold get_item_by_name
    rw [if_neg hname, hm]
    show (match collectIds id_field (a :: b :: t) with
      | Except.ok ids => Except.error (CrudError.multipleItemsReturned "Multiple items found" ids)
      | Except.error e => Except.error e) = _
    rw [hcoll]
  exact ⟨hget, by rw [validate_single_item, hget]⟩

/-- Remote tag list of the duplicate-name scenario: two tags both named
`test_tag`, with ids 1 and 2. -/
def demoTags : List Item :=
  [[("ID", Value.vint 1), ("Name", Value.vstr "test_tag")],
   [("ID", Value.vint 2), ("Name", Value.vstr "test_tag")]]

/-- Witness for C1 on the duplicate-tag scenario: both lookups fail and
report the colliding ids `[1, 2]` in remote order. -/
theorem crud_ambiguous_name_refusal_witness :
    ("test_tag" : String) ≠ ""
    ∧ 2 ≤ (matchingItems "Name" "test_tag" demoTags []).length
    ∧ (∀ it ∈ matchingItems "Name" "test_tag" demoTags [],
        (Dict.findV it "ID").isSome)
    ∧ get_item_by_name "Name" "ID" "test_tag" demoTags [] =
        .error (.multipleItemsReturned "Multiple items found" [Value.vint 1, Value.vint 2])
    ∧ validate_single_item "Name" "ID" "tag" "retrieve" "test_tag" demoTags [] =
        .failJson (validateFailMsg "retrieve" "tag" "test_tag")
          [Value.vint 1, Value.vint 2] := by
  refine ⟨by decide, by decide, by decide, ?_, ?_⟩
  · exact (crud_ambiguous_name_refusal "Name" "ID" "tag" "retrieve" "test_tag" demoTags []
      (by decide) (by decide) (by decide)).1
  · exact (crud_ambiguous_name_refusal "Name" "ID" "tag" "retrieve" "test_tag" demoTags []
      (by decide) (by decide) (by decide)).2

/-- `RequestMethod` from `plugins/module_utils/portainer_client.py`. -/
inductive RequestMethod where
  | GET
  | PUT
  | POST
  | DELETE
  deriving Repr, DecidableEq

namespace StackCRUD

/-- The stack collection endpoint (`StackCRUD.__init__`). -/
def endpoint : String := "/stacks"

/-- `StackCRUD._get_create_endpoint`. -/
def get_create_endpoint (stack_type stack_source : String) : String :=
  endpoint ++ "/create/" ++ stack_type ++ "/" ++ stack_source

/-- `StackCRUD._get_update_endpoint`: `/stacks/{id}/git` only for
swarm + repository, `/stacks/{id}` otherwise. -/
def get_update_endpoint (stack_type stack_source : String) (id : Int) : String :=
  if stack_type = "swarm" then
    if stack_source = "repository" then endpoint ++ "/" ++ toString id ++ "/git"
    else endpoint ++ "/" ++ toString id
  else endpoint ++ "/" ++ toString id

/-- `StackCRUD._update_method`: `client.post` only for
swarm + repository, `client.put` otherwise. -/
def update_method (stack_type stack_source : String) : RequestMethod :=
  if stack_type = "swarm" then
    if stack_source = "repository" then .POST
    else .PUT
  else .PUT

end StackCRUD

/-- C3: the stack adapter's endpoint/method matrix.  The create endpoint
is `/stacks/create/{stack_type}/{stack_source}` for every combination;
the update endpoint and verb are `/stacks/{id}/git` with POST exactly for
swarm + repository and `/stacks/{id}` with PUT for the other three
combinations. -/
theorem stack_endpoint_matrix (stack_type stack_source : String) (id : Int) :
    StackCRUD.get_create_endpoint stack_type stack_source =
      "/stacks/create/" ++ stack_type ++ "/" ++ stack_source
    ∧ StackCRUD.get_update_endpoint "swarm" "repository" id =
        "/stacks/" ++ toString id ++ "/git"
    ∧ StackCRUD.update_method "swarm" "repository" = .POST
    ∧ StackCRUD.get_update_endpoint "standalone" "file" id = "/stacks/" ++ toString id
    ∧ StackCRUD.update_method "standalone" "file" = .PUT
    ∧ StackCRUD.get_update_endpoint "standalone" "repository" id = "/stacks/" ++ toString id
    ∧ StackCRUD.update_method "standalone" "repository" = .PUT
    ∧ StackCRUD.get_update_endpoint "swarm" "file" id = "/stacks/" ++ toString id
    ∧ StackCRUD.update_method "swarm" "file" = .PUT :=
  ⟨rfl, rfl, rfl, rfl, rfl, rfl, rfl, rfl, rfl⟩

namespace BaseDockerCRUD

/-- `BaseDockerCRUD.endpoint`: the Docker subpath routed through the
Portainer proxy of the selected environment; with no selected
environment id it raises a `ValueError`. -/
def proxy_endpoint (endpoint_id : Option Int) (docker_endpoint : String) :
    Except CrudError String :=
  match endpoint_id with
  | none => .error (.valueError "endpoint_id must be set")
  | some e => .ok ("/endpoints/" ++ toString e ++ "/docker" ++ docker_endpoint)

/-- `BaseCRUD.list_items` path under the Docker proxy. -/
def list_endpoint (endpoint_id : Option Int) (docker_endpoint : String) :
    Except CrudError String :=
  proxy_endpoint endpoint_id docker_endpoint

/-- `BaseCRUD.get_item_by_id` path under the Docker proxy. -/
def get_endpoint (endpoint_id : Option Int) (docker_endpoint : String) (id : Int) :
    Except CrudError String :=
  (proxy_endpoint endpoint_id docker_endpoint).map (fun e => e ++ "/" ++ toString id)

/-- `BaseDockerCRUD._get_create_endpoint`. -/
def get_create_endpoint (endpoint_id : Option Int) (docker_endpoint : String) :
    Except CrudError String :=
  (proxy_endpoint endpoint_id docker_endpoint).map (fun e => e ++ "/create")

/-- `BaseDockerCRUD._get_update_endpoint`. -/
def get_update_endpoint (endpoint_id : Option Int) (docker_endpoint : String) (id : Int) :
    Except CrudError String :=
  (proxy_endpoint endpoint_id docker_endpoint).map
    (fun e => e ++ "/" ++ toString id ++ "/update")

/-- `BaseCRUD._get_delete_endpoint` under the Docker proxy. -/
def get_delete_endpoint (endpoint_id : Option Int) (docker_endpoint : String) (id : Int) :
    Except CrudError String :=
  (proxy_endpoint endpoint_id docker_endpoint).map (fun e => e ++ "/" ++ toString id)

end BaseDockerCRUD

/-- C4 counterexample: with selected environment id 1, the network list
path is `/endpoints/1/docker/networks`, not the
`/environments/1/proxy/networks` the claim prescribes. -/
theorem docker_proxy_path_counterexample :
    BaseDockerCRUD.list_endpoint (some 1) "/networks" = .ok "/endpoints/1/docker/networks"
    ∧ ("/endpoints/1/docker/networks" : String) ≠ "/environments/1/proxy" ++ "/networks" := by
  exact ⟨rfl, by decide⟩

/-- The proxy prefix every Docker-proxied path actually carries. -/
def dockerProxyPrefix (endpoint_id : Int) : String :=
  "/endpoints/" ++ toString endpoint_id ++ "/docker"

/-- C4 amended: for every Docker-proxied operation with selected
environment id `E`, every endpoint path (list, get, create, update,
delete) is the Docker subpath prefixed by `/endpoints/{E}/docker`; with
no selected environment the access is a fatal `ValueError`. -/
theorem docker_proxy_paths (E : Int) (sub : String) (id : Int) :
    BaseDockerCRUD.list_endpoint (some E) sub = .ok (dockerProxyPrefix E ++ sub)
    ∧ BaseDockerCRUD.get_endpoint (some E) sub id =
        .ok (dockerProxyPrefix E ++ sub ++ "/" ++ toString id)
    ∧ BaseDockerCRUD.get_create_endpoint (some E) sub =
        .ok (dockerProxyPrefix E ++ sub ++ "/create")
    ∧ BaseDockerCRUD.get_update_endpoint (some E) sub id =
        .ok (dockerProxyPrefix E ++ sub ++ "/" ++ toString id ++ "/update")
    ∧ BaseDockerCRUD.get_delete_endpoint (some E) sub id =
        .ok (dockerProxyPrefix E ++ sub ++ "/" ++ toString id)
    ∧ BaseDockerCRUD.proxy_endpoint none sub =
        .error (.valueError "endpoint_id must be set") :=
  ⟨rfl, rfl, rfl, rfl, rfl, rfl⟩

/-- A transport call issued against the management API: verb plus path. -/
inductive ApiCall where
  | get (path : String)
  | put (path : String)
  | post (path : String)
  | delete (path : String)
  deriving Repr, DecidableEq

namespace StackCRUD

/-- `BaseCRUD.update_item` specialized by `StackCRUD`: one call with the
verb of `_update_method` against `_get_update_endpoint`. -/
def update_item_call (stack_type stack_source : String) (id : Int) : ApiCall :=
  match update_method stack_type stack_source with
  | .POST => .post (get_update_endpoint stack_type stack_source id)
  | _ => .put (get_update_endpoint stack_type stack_source id)

/-- `StackCRUD.redeploy`: only swarm + repository issues the PUT to
`/stacks/{id}/git/redeploy`; in every other combination `response` stays
`None` and the `isinstance` guard raises
`ValueError("Unexpected response received")`.  The transport is assumed
to hand back a JSON object on a successful PUT; the value returned is
the list of calls issued. -/
def redeploy (stack_type stack_source : String) (stack_id : Int) :
    Except CrudError (List ApiCall) :=
  if stack_type = "swarm" then
    if stack_source = "repository" then
      .ok [.put (endpoint ++ "/" ++ toString stack_id ++ "/git/redeploy")]
    else .error (.valueError "Unexpected response received")
  else .error (.valueError "Unexpected response received")

end StackCRUD

/-- Outcome of one orchestrator run: a normal exit with its `changed`
flag, message and the mutating transport calls issued; a `fail_json`; or
a propagated Python exception. -/
inductive ModuleOutcome where
  | success (changed : Bool) (msg : String) (calls : List ApiCall)
  | failJson (msg : String)
  | raised (e : CrudError)
  deriving Repr, DecidableEq

/-- `StackManager.ensure_redeployed` from
`plugins/modules/portainer_stack.py`: with no existing stack it fails
fatally; with one, check mode issues nothing, a repository source goes
through `StackCRUD.redeploy`, and any other source goes through the
ordinary update call. -/
def ensure_redeployed (stack_type stack_source : String) (stack_id : Option Int)
    (check_mode : Bool) : ModuleOutcome :=
  match stack_id with
  | some id =>
    if check_mode then .success true "Stack redeployed." []
    else
      if stack_source = "repository" then
        match StackCRUD.redeploy stack_type stack_source id with
        | .ok calls => .success true "Stack redeployed." calls
        | .error e => .raised e
      else .success true "Stack redeployed." [StackCRUD.update_item_call stack_type stack_source id]
  | none => .failJson "Cannot redeploy an inexistent stack."

/-- C5 counterexample: redeploying an existing standalone + repository
stack does not degrade to a plain update — `StackCRUD.redeploy` leaves
`response = None` and the run dies on
`ValueError("Unexpected response received")`. -/
theorem stack_redeploy_counterexample :
    ensure_redeployed "standalone" "repository" (some 1) false =
      .raised (.valueError "Unexpected response received")
    ∧ ensure_redeployed "standalone" "repository" (some 1) false ≠
      .success true "Stack redeployed."
        [StackCRUD.update_item_call "standalone" "repository" 1] := by
  exact ⟨rfl, by decide⟩

/-- C5 amended: with an existing stack and check mode off, swarm +
repository redeploys via PUT `/stacks/{id}/git/redeploy`; the two
file-sourced combinations degrade to the plain update call; standalone +
repository raises `ValueError("Unexpected response received")`; and with
no existing stack the operation fails fatally instead of creating one. -/
theorem stack_ensure_redeployed_matrix (id : Int) (stack_type stack_source : String) :
    ensure_redeployed "swarm" "repository" (some id) false =
      .success true "Stack redeployed." [.put ("/stacks/" ++ toString id ++ "/git/redeploy")]
    ∧ ensure_redeployed "swarm" "file" (some id) false =
        .success true "Stack redeployed." [.put ("/stacks/" ++ toString id)]
    ∧ ensure_redeployed "standalone" "file" (some id) false =
        .success true "Stack redeployed." [.put ("/stacks/" ++ toString id)]
    ∧ ensure_redeployed "standalone" "repository" (some id) false =
        .raised (.valueError "Unexpected response received")
    ∧ ensure_redeployed stack_type stack_source none false =
        .failJson "Cannot redeploy an inexistent stack." :=
  ⟨rfl, rfl, rfl, rfl, rfl⟩

/-- `RequestMethod.value`: the HTTP verb string of the enum member. -/
def RequestMethod.value : RequestMethod → String
  | .GET => "GET"
  | .PUT => "PUT"
  | .POST => "POST"
  | .DELETE => "DELETE"

/-- `PortainerApiError` from `plugins/module_utils/portainer_client.py`:
the typed error raised on a rejected response, carrying the message,
HTTP status, response body, requested URL, method, and request payload. -/
structure PortainerApiError where
  message : String
  status : Int
  body : String
  url : String
  method : String
  data : Dict
  deriving Repr, DecidableEq

/-- Response classification of `PortainerClient._make_request`: a status
in `[200, 201, 204]` returns the parsed JSON body (`none` models an
empty body); any other status raises `PortainerApiError` populated from
the response info and the request. -/
def make_request_classify (method : RequestMethod) (url : String) (data : Dict)
    (status : Int) (msg body : String) (resp : Option Value) :
    Except PortainerApiError (Option Value) :=
  if status ∈ ([200, 201, 204] : List Int) then .ok resp
  else .error ⟨msg, status, body, url, method.value, data⟩

/-- C6 counterexample: 202 Accepted is a 2xx status, yet the transport
raises `PortainerApiError` instead of classifying it as success. -/
theorem transport_2xx_counterexample :
    ((200 : Int) ≤ 202 ∧ (202 : Int) < 300)
    ∧ make_request_classify .GET "https://portainer.example.com/api/stacks" [] 202
        "Accepted" "" (some (Value.vstr "ok")) =
      .error ⟨"Accepted", 202, "", "https://portainer.example.com/api/stacks", "GET", []⟩ := by
  exact ⟨by decide, rfl⟩

/-- C6 amended: a response is classified as success (returning the
parsed body) exactly for statuses 200, 201 and 204; every other status
— including the remaining 2xx codes — raises the typed API error
carrying the status, body, URL and method. -/
theorem transport_status_classification (method : RequestMethod) (url : String)
    (data : Dict) (status : Int) (msg body : String) (resp : Option Value) :
    make_request_classify method url data status msg body resp =
      (if status = 200 ∨ status = 201 ∨ status = 204 then .ok resp
       else .error ⟨msg, status, body, url, method.value, data⟩) := by
  by_cases h : status = 200 ∨ status = 201 ∨ status = 204
  · rw [if_pos h]
    have hmem : status ∈ ([200, 201, 204] : List Int) := by simpa using h
    simp [make_request_classify, hmem]
  · rw [if_neg h]
    have hmem : status ∉ ([200, 201, 204] : List Int) := by simpa using h
    simp [make_request_classify, hmem]

/-- A mutating transport call issued by the config orchestrator. -/
inductive ConfigCall where
  | deleteConfig (id : Value)
  | createConfig (name : String) (data : Dict)
  deriving Repr, DecidableEq

/-- Observable outcome of one config orchestrator run: the `changed`
flag, the reported message, and the mutating calls issued. -/
structure ConfigRunResult where
  changed : Bool
  msg : String
  calls : List ConfigCall
  deriving Repr, DecidableEq

/-- `PortainerConfigManager.ensure_present` from
`plugins/modules/portainer_config.py`.  `config` is the pre-fetched
existing record (or `None`), `config_data` the desired payload built by
`_get_config_data`.  `results["changed"]` starts out `False` and is only
set in the recreate/create branches; the Python `self.config[CONFIG_ID]`
indexing for the delete is modelled by the defaulting lookup. -/
def PortainerConfigManager.ensure_present (name : String) (config : Option Dict)
    (config_data : Dict) (force check_mode : Bool) : ConfigRunResult :=
  match config with
  | some cfg =>
    let changes := IdempotencyManager.needs_update cfg config_data []
    if changes = [] then ⟨false, "Config already exists.", []⟩
    else if !force then ⟨false, "Config already exists. Update skipped.", []⟩
    else if !check_mode then
      ⟨true, "Config updated.",
        [.deleteConfig (cfg.getV "ID"), .createConfig name config_data]⟩
    else ⟨true, "Config updated.", []⟩
  | none =>
    if !check_mode then ⟨true, "Config created.", [.createConfig name config_data]⟩
    else ⟨true, "Config created.", []⟩

/-- C7: an existing config whose desired content differs (non-empty
change-set) with `force` unset completes with `changed = false`, the
"Update skipped" message, and no delete or create transport call. -/
theorem config_update_skipped_without_force
    (name : String) (cfg config_data : Dict) (check_mode : Bool)
    (hchanges : IdempotencyManager.needs_update cfg config_data [] ≠ []) :
    PortainerConfigManager.ensure_present name (some cfg) config_data false check_mode =
      ⟨false, "Config already exists. Update skipped.", []⟩ := by
  simp [PortainerConfigManager.ensure_present, hchanges]

/-- The existing remote record of the blocked-update scenario. -/
def demoConfig : Dict :=
  [("ID", Value.vint 1), ("Name", Value.vstr "test_config"),
   ("Data", Value.vstr "b2xkIGRhdGE=")]

/-- The desired payload of the blocked-update scenario: same name,
different base64 content. -/
def demoConfigData : Dict :=
  [("Name", Value.vstr "test_config"), ("Data", Value.vstr "bmV3IGRhdGE=")]

/-- Witness for C7 on the blocked-update scenario. -/
theorem config_update_skipped_without_force_witness :
    IdempotencyManager.needs_update demoConfig demoConfigData [] ≠ []
    ∧ PortainerConfigManager.ensure_present "test_config" (some demoConfig)
        demoConfigData false false =
      ⟨false, "Config already exists. Update skipped.", []⟩ := by
  refine ⟨by decide, ?_⟩
  exact config_update_skipped_without_force "test_config" demoConfig demoConfigData false
    (by decide)

/-- The change-detection skip list `StackConfig.for_stack` builds for
repository-sourced stacks: the server bookkeeping fields of
`__post_init__` merged with the write-only repository password. -/
def repository_skip_fields : List String :=
  ["ResourceControl", "UpdateDate", "UpdatedBy", "RepositoryPassword"]

/-- `StackManager.needs_update` from `plugins/modules/portainer_stack.py`:
delegates to the idempotency engine with the configured skip fields and,
for repository-sourced stacks with `update_password`, forces the changed
flag to true regardless of the change-set. -/
def StackManager.needs_update (old_data new_data : Dict) (skip_fields : List String)
    (stack_source : String) (update_password : Bool) : Bool × Dict :=
  let changes := IdempotencyManager.needs_update old_data new_data skip_fields
  if stack_source = "repository" && update_password then (true, changes)
  else (!changes.isEmpty, changes)

/-- A mutating stack repository call of `StackManager.ensure_present`. -/
inductive StackCall where
  | updateStack
  | createStack
  deriving Repr, DecidableEq

/-- Observable outcome of `StackManager.ensure_present`. -/
structure StackRunResult where
  changed : Bool
  msg : String
  calls : List StackCall
  deriving Repr, DecidableEq

/-- `StackManager.ensure_present`: an existing stack is updated when the
changed flag of `StackManager.needs_update` is set (no call in check
mode), otherwise reported unchanged; a missing stack is created. -/
def StackManager.ensure_present (stack_id : Option Int) (old_data new_data : Dict)
    (skip_fields : List String) (stack_source : String)
    (update_password check_mode : Bool) : StackRunResult :=
  match stack_id with
  | some _ =>
    let r := StackManager.needs_update old_data new_data skip_fields
      stack_source update_password
    if !r.1 then ⟨false, "Stack already exists with correct configuration.", []⟩
    else if !check_mode then ⟨true, "Stack updated.", [.updateStack]⟩
    else ⟨true, "Stack updated.", []⟩
  | none =>
    if !check_mode then ⟨true, "Stack created.", [.createStack]⟩
    else ⟨true, "Stack created.", []⟩

/-- C8: for an existing repository-sourced stack with
`update_password = true` the operation always reports `changed = true`
and issues the update call — for every change-set, including the empty
one — and the change-set itself can never contain the write-only
repository password, which sits in the skip list. -/
theorem stack_update_password_forces_change
    (id : Int) (old_data new_data : Dict) (v : Value) :
    ("RepositoryPassword", v) ∉ IdempotencyManager.needs_update old_data new_data repository_skip_fields
    ∧ (StackManager.needs_update old_data new_data repository_skip_fields
        "repository" true).1 = true
    ∧ StackManager.ensure_present (some id) old_data new_data repository_skip_fields
        "repository" true false = ⟨true, "Stack updated.", [.updateStack]⟩ := by
  refine ⟨?_, rfl, rfl⟩
  intro hmem
  simp [IdempotencyManager.needs_update, List.mem_filter, repository_skip_fields] at hmem

/-- The mutable fields of a `BaseDockerCRUD` instance
(`plugins/module_utils/portainer_crud.py`). -/
structure DockerCrudState where
  endpoint_id : Option Int
  docker_endpoint : String
  name_field : String
  id_field : String
  resource_name : String
  deriving Repr, DecidableEq

/-- Assignment to `self._endpoint_id`, leaving every other field as is. -/
def DockerCrudState.set_endpoint_id (s : DockerCrudState) (e : Option Int) : DockerCrudState :=
  ⟨e, s.docker_endpoint, s.name_field, s.id_field, s.resource_name⟩

/-- `BaseDockerCRUD.using_endpoint`: saves `_endpoint_id`, sets it to the
requested environment, runs the body (which returns its final state and
either a value or a raised exception), and restores the saved id in the
`finally` block — whether or not the body raised. -/
def using_endpoint {α : Type} (s : DockerCrudState) (e : Int)
    (body : DockerCrudState → DockerCrudState × Except CrudError α) :
    DockerCrudState × Except CrudError α :=
  let old := s.endpoint_id
  let r := body (s.set_endpoint_id (some e))
  (r.1.set_endpoint_id old, r.2)

/-- C9: inside `using_endpoint e` the body runs with the selected
environment id `e` and every other adapter field untouched; on exit the
previous id is restored — whatever state the body left and whether it
returned normally or raised — and the scoping mechanism modifies no
other field of the state the body produced. -/
theorem using_endpoint_scoped_restore {α : Type} (s : DockerCrudState) (e : Int)
    (body : DockerCrudState → DockerCrudState × Except CrudError α) :
    (s.set_endpoint_id (some e)).endpoint_id = some e
    ∧ (s.set_endpoint_id (some e)).docker_endpoint = s.docker_endpoint
    ∧ (s.set_endpoint_id (some e)).name_field = s.name_field
    ∧ (s.set_endpoint_id (some e)).id_field = s.id_field
    ∧ (s.set_endpoint_id (some e)).resource_name = s.resource_name
    ∧ (using_endpoint s e body).1.endpoint_id = s.endpoint_id
    ∧ (using_endpoint s e body).2 = (body (s.set_endpoint_id (some e))).2
    ∧ (using_endpoint s e body).1.docker_endpoint =
        (body (s.set_endpoint_id (some e))).1.docker_endpoint
    ∧ (using_endpoint s e body).1.name_field =
        (body (s.set_endpoint_id (some e))).1.name_field
    ∧ (using_endpoint s e body).1.id_field =
        (body (s.set_endpoint_id (some e))).1.id_field
    ∧ (using_endpoint s e body).1.resource_name =
        (body (s.set_endpoint_id (some e))).1.resource_name :=
  ⟨rfl, rfl, rfl, rfl, rfl, rfl, rfl, rfl, rfl, rfl, rfl⟩

/-- The `Stack` dataclass of `plugins/modules/portainer_stack.py`: every
attribute defaults to `None`; attribute values are left untyped, as in
Python. -/
structure Stack where
  id : Option Value
  name : Option Value
  env : Option Value
  prune : Option Value
  pull_images : Option Value
  additional_files : Option Value
  autoupdate : Option Value
  compose_file : Option Value
  rep_authentication : Option Value
  rep_password : Option Value
  rep_refs_name : Option Value
  rep_url : Option Value
  rep_username : Option Value
  swarm_id : Option Value
  endpoint_id : Option Value
  tls_skip_verify : Option Value
  status : Option Value
  deriving Repr, DecidableEq

/-- `Stack.fields_mapping`: API key → attribute, in source order; the
duplicate `SwarmId`/`SwarmID` and `EndpointId`/`endpointId` keys both
read the same attribute, as in the source. -/
def Stack.fields_mapping : List (String × (Stack → Option Value)) :=
  [("Id", (·.id)),
   ("Name", (·.name)),
   ("Env", (·.env)),
   ("Prune", (·.prune)),
   ("PullImage", (·.pull_images)),
   ("AdditionalFiles", (·.additional_files)),
   ("AutoUpdate", (·.autoupdate)),
   ("ComposeFile", (·.compose_file)),
   ("RepositoryAuthentication", (·.rep_authentication)),
   ("RepositoryPassword", (·.rep_password)),
   ("RepositoryReferenceName", (·.rep_refs_name)),
   ("RepositoryURL", (·.rep_url)),
   ("RepositoryUsername", (·.rep_username)),
   ("SwarmId", (·.swarm_id)),
   ("SwarmID", (·.swarm_id)),
   ("EndpointId", (·.endpoint_id)),
   ("endpointId", (·.endpoint_id)),
   ("TlsskipVerify", (·.tls_skip_verify)),
   ("Status", (·.status))]

/-- `Stack.private_fields`. -/
def Stack.private_fields : List String := ["RepositoryPassword"]

/-- One entry of the `Stack.to_dict` loop: a `None` attribute is
skipped, a private key is emitted as `"***"`, anything else verbatim. -/
def Stack.toDictEntry (st : Stack) (kf : String × (Stack → Option Value)) :
    Option (String × Value) :=
  (kf.2 st).map (fun v =>
    (kf.1, if Stack.private_fields.contains kf.1 then Value.vstr "***" else v))

/-- `Stack.to_dict`: the loop over `fields_mapping`. -/
def Stack.to_dict (st : Stack) : Dict :=
  Stack.fields_mapping.filterMap (Stack.toDictEntry st)

/-- Replacing the `rep_password` attribute, every other attribute kept. -/
def Stack.set_rep_password (st : Stack) (p : Option Value) : Stack :=
  ⟨st.id, st.name, st.env, st.prune, st.pull_images, st.additional_files,
   st.autoupdate, st.compose_file, st.rep_authentication, p, st.rep_refs_name,
   st.rep_url, st.rep_username, st.swarm_id, st.endpoint_id,
   st.tls_skip_verify, st.status⟩

/-- Entries whose key is not `k` contribute no binding for `k`. -/
theorem findV_filterMap_ne (st : Stack) (k : String)
    (l : List (String × (Stack → Option Value)))
    (h : ∀ kf ∈ l, kf.1 ≠ k) :
    Dict.findV (l.filterMap (Stack.toDictEntry st)) k = none := by
  induction l with
  | nil => rfl
  | cons kf t ih =>
    have hk : kf.1 ≠ k := h kf (by simp)
    have ht := ih (fun x hx => h x (by simp [hx]))
    cases hv : kf.2 st with
    | none => simpa [Stack.toDictEntry, hv] using ht
    | some v => simpa [Stack.toDictEntry, hv, Dict.findV, hk] using ht

/-- Lookup distributes over a dictionary concatenation whose first part
lacks the key. -/
theorem findV_append_of_none (d₁ d₂ : Dict) (k : String)
    (h : Dict.findV d₁ k = none) :
    Dict.findV (d₁ ++ d₂) k = Dict.findV d₂ k := by
  induction d₁ with
  | nil => rfl
  | cons kv t ih =>
    by_cases hk : kv.1 = k
    · simp [Dict.findV, hk] at h
    · simp [Dict.findV, hk] at h ⊢
      exact ih h

/-- Two states on which every entry produces the same contribution give
the same `to_dict` restriction. -/
theorem filterMap_toDictEntry_congr (s₁ s₂ : Stack)
    (l : List (String × (Stack → Option Value)))
    (h : ∀ kf ∈ l, Stack.toDictEntry s₁ kf = Stack.toDictEntry s₂ kf) :
    l.filterMap (Stack.toDictEntry s₁) = l.filterMap (Stack.toDictEntry s₂) := by
  induction l with
  | nil => rfl
  | cons kf t ih =>
    have hk := h kf (by simp)
    have ht := ih (fun x hx => h x (by simp [hx]))
    simp [List.filterMap_cons, hk, ht]

/-- The mapping entries before the repository password. -/
def Stack.fields_mapping_pre : List (String × (Stack → Option Value)) :=
  [("Id", (·.id)),
   ("Name", (·.name)),
   ("Env", (·.env)),
   ("Prune", (·.prune)),
   ("PullImage", (·.pull_images)),
   ("AdditionalFiles", (·.additional_files)),
   ("AutoUpdate", (·.autoupdate)),
   ("ComposeFile", (·.compose_file)),
   ("RepositoryAuthentication", (·.rep_authentication))]

/-- The mapping entries after the repository password. -/
def Stack.fields_mapping_post : List (String × (Stack → Option Value)) :=
  [("RepositoryReferenceName", (·.rep_refs_name)),
   ("RepositoryURL", (·.rep_url)),
   ("RepositoryUsername", (·.rep_username)),
   ("SwarmId", (·.swarm_id)),
   ("SwarmID", (·.swarm_id)),
   ("EndpointId", (·.endpoint_id)),
   ("endpointId", (·.endpoint_id)),
   ("TlsskipVerify", (·.tls_skip_verify)),
   ("Status", (·.status))]

/-- The source mapping splits around the password entry. -/
theorem fields_mapping_split :
    Stack.fields_mapping =
      Stack.fields_mapping_pre ++
        ("RepositoryPassword", (·.rep_password)) :: Stack.fields_mapping_post := rfl

/-- C10: with a non-`None` repository password, `to_dict` binds the
password key to the literal `"***"`, and two stacks differing only in
their (non-`None`) password have identical `to_dict` output — the
reported representation never depends on the password value. -/
theorem stack_to_dict_masks_password (st : Stack) (p₁ p₂ : Value) :
    Dict.findV ((st.set_rep_password (some p₁)).to_dict) "RepositoryPassword" =
      some (Value.vstr "***")
    ∧ (st.set_rep_password (some p₁)).to_dict = (st.set_rep_password (some p₂)).to_dict := by
  constructor
  · rw [Stack.to_dict, fields_mapping_split, List.filterMap_append]
    rw [findV_append_of_none]
    · rfl
    · refine findV_filterMap_ne _ _ _ ?_
      intro kf hkf
      simp [Stack.fields_mapping_pre] at hkf
      rcases hkf with rfl | rfl | rfl | rfl | rfl | rfl | rfl | rfl | rfl <;> decide
  · refine filterMap_toDictEntry_congr _ _ _ ?_
    intro kf hkf
    simp [Stack.fields_mapping] at hkf
    rcases hkf with rfl | rfl | rfl | rfl | rfl | rfl | rfl | rfl | rfl | rfl |
      rfl | rfl | rfl | rfl | rfl | rfl | rfl | rfl | rfl <;> rfl
